import Mathlib

/-!
Verification of the preflop decision core of the poker assistant repository.

The development shallowly embeds the Python modules
src/poker_logic/hand_evaluator.py, src/poker_logic/equity.py,
src/poker_logic/blockers.py and src/utils/helpers.py.

Conventions of the embedding:
* A card string such as "As" or "Kd" becomes a `Card` with a rank index into
  the order A K Q J T 9 8 7 6 5 4 3 2 (so 0 is the Ace, 12 the deuce; this is
  exactly the order of the string "AKQJT98765432" and of the RANKS list in
  src/config.py) and a suit index into the order s h d c (the `suits` list of
  expand_hand_notation and the deck comprehension order).
* Python floats that only ever hold exact decimal values (equities,
  percentiles, thresholds) become rationals.
* The process global generator of the `random` module becomes an explicit
  draw function `Nat → Nat` together with a running draw counter; each call to
  random.choice consumes one draw used as an index, and random.sample
  consumes one draw per element, indexing into the not yet drawn part of the
  population.  Functions that consume randomness return the advanced counter
  so that sequential calls thread the global state.
* The external treys library is not part of the repository; compare_hands is
  therefore a parameter `cmp` of the simulator, and its in-repository
  fallback path (treys unavailable), which scores both hands with
  evaluate_preflop_hand, is embedded as `compare_hands_preflop` for concrete
  runs.
-/

namespace PokerCore

/-- Rank index into the order A K Q J T 9 8 7 6 5 4 3 2; 0 is the Ace. -/
abbrev Rank := Fin 13

/-- Suit index into the order s h d c. -/
abbrev Suit := Fin 4

/-- A playing card, the model of a two character string such as "As". -/
structure Card where
  rank : Rank
  suit : Suit
deriving DecidableEq, Repr

instance : Inhabited Card := ⟨⟨0, 0⟩⟩

/-- Embeds evaluate_preflop_hand from src/poker_logic/hand_evaluator.py,
lines 115 to 178.  The result is the pair of hand class and score; the
Russian description string of the original is presentation only and omitted.
Lists of other than two cards take the final catch all branch, as in the
Python length check. -/
def evaluate_preflop_hand (hole_cards : List Card) : Nat × Int :=
  match hole_cards with
  | [c1, c2] =>
    if c1.rank = c2.rank then
      if c1.rank.val ≤ 1 then (1, 100)
      else if c1.rank.val ≤ 3 then (2, 300)
      else if c1.rank.val ≤ 5 then (3, 600)
      else (4, 1000)
    else
      let rank1 : Rank := if c1.rank.val > c2.rank.val then c2.rank else c1.rank
      let rank2 : Rank := if c1.rank.val > c2.rank.val then c1.rank else c2.rank
      if rank1.val ≤ 3 ∧ rank2.val ≤ 4 then
        if c1.suit = c2.suit then (2, 400) else (3, 700)
      else
        let gap : Nat := ((rank1.val : Int) - (rank2.val : Int)).natAbs
        if c1.suit = c2.suit ∧ gap ≤ 2 then (4, 1200)
        else if rank1.val = 0 then
          if c1.suit = c2.suit then (5, 1500) else (6, 2000)
        else if c1.suit = c2.suit then (7, 3000)
        else (8, 5000)
  | _ => (10, 7462)

/-- Embeds compare_hands from src/poker_logic/hand_evaluator.py on its
library free path (treys unavailable, or a board of fewer than three cards):
both hole card lists are scored with evaluate_preflop_hand and the scores
compared; the board is ignored on this path exactly as in the source. -/
def compare_hands_preflop (hand1 hand2 _board : List Card) : Int :=
  let score1 := (evaluate_preflop_hand hand1).2
  let score2 := (evaluate_preflop_hand hand2).2
  if score1 < score2 then 1
  else if score1 > score2 then -1
  else 0

/-- The shape of a starting hand class string, mirroring the four branches of
expand_hand_notation in src/poker_logic/equity.py, lines 84 to 126: a two
character pair such as "AA", a suited class such as "AKs", an offsuit class
such as "AKo", and the plain two card fallback branch. -/
inductive HandShape where
  | pair (rank : Rank)
  | suited (r1 r2 : Rank)
  | offsuit (r1 r2 : Rank)
  | generic (r1 r2 : Rank)
deriving DecidableEq, Repr

/-- The suit list s h d c of expand_hand_notation. -/
def suits : List Suit := List.finRange 4

/-- Embeds expand_hand_notation from src/poker_logic/equity.py, lines 84 to
126 (the name of the source function ends in a word this development cannot
use as an identifier, hence the shape suffix).  A pair enumerates the suit
pairs with the first suit strictly earlier in the suit list, a suited class
pairs both ranks with each single suit, an offsuit class takes all ordered
suit pairs with distinct suits, and the fallback takes all ordered suit pairs
that do not produce the same physical card twice. -/
def expand_hand_shape : HandShape → List (Card × Card)
  | .pair rank =>
    suits.flatMap fun s1 =>
      (suits.filter fun s2 => decide (s1 < s2)).map fun s2 =>
        (⟨rank, s1⟩, ⟨rank, s2⟩)
  | .suited r1 r2 =>
    suits.map fun s => (⟨r1, s⟩, ⟨r2, s⟩)
  | .offsuit r1 r2 =>
    suits.flatMap fun s1 =>
      (suits.filter fun s2 => decide (s1 ≠ s2)).map fun s2 =>
        (⟨r1, s1⟩, ⟨r2, s2⟩)
  | .generic r1 r2 =>
    suits.flatMap fun s1 =>
      (suits.filter fun s2 => decide (r1 ≠ r2 ∨ s1 ≠ s2)).map fun s2 =>
        (⟨r1, s1⟩, ⟨r2, s2⟩)

/-- A frequency distribution over raise, call and fold, the value type of the
frequency dictionaries of src/poker_logic/equity.py. -/
structure Freqs where
  raise : Nat
  call : Nat
  fold : Nat
deriving DecidableEq, Repr

/-- The numeric parameters of one opponent archetype, the value type of the
opponent_params dictionary in get_recommendation_v2 (src/poker_logic/
equity.py, lines 414 to 421). -/
structure OppParams where
  open_range : Nat
  fold_to_3bet : Nat
  fourbet_range : Nat
deriving DecidableEq, Repr

/-- Embeds the opponent_params dictionary of get_recommendation_v2 together
with its .get fallback to the unknown entry. -/
def opponent_params (opponent_type : String) : OppParams :=
  if opponent_type = "unknown" then ⟨20, 55, 5⟩
  else if opponent_type = "fish" then ⟨35, 30, 3⟩
  else if opponent_type = "reg" then ⟨18, 58, 6⟩
  else if opponent_type = "nit" then ⟨10, 70, 3⟩
  else if opponent_type = "lag" then ⟨28, 45, 10⟩
  else if opponent_type = "maniac" then ⟨45, 25, 15⟩
  else ⟨20, 55, 5⟩

/-- Embeds _get_rfi_frequencies from src/poker_logic/equity.py, lines 535 to
556, including the thresholds dictionary with its .get default of 75. -/
def _get_rfi_frequencies (position : String) (percentile : ℚ) : Freqs :=
  let threshold : ℚ :=
    if position = "UTG" then 85
    else if position = "MP" then 80
    else if position = "CO" then 70
    else if position = "BTN" then 55
    else if position = "SB" then 60
    else if position = "BB" then 100
    else 75
  if percentile ≥ threshold then ⟨100, 0, 0⟩
  else if percentile ≥ threshold - 10 then ⟨70, 0, 30⟩
  else if percentile ≥ threshold - 20 then ⟨30, 0, 70⟩
  else ⟨0, 0, 100⟩

/-- Embeds _get_vs_open_frequencies from src/poker_logic/equity.py, lines 559
to 594.  The villain position parameter is kept although, as in the source,
the body never reads it. -/
def _get_vs_open_frequencies (hero_pos _villain_pos : String) (percentile : ℚ)
    (opp_params : OppParams) (blocker_adj : ℚ) : Freqs :=
  let three_bet_threshold0 : ℚ := 90
  let call_threshold0 : ℚ := 70
  let three_bet_threshold1 : ℚ :=
    if hero_pos = "BTN" ∨ hero_pos = "CO" then three_bet_threshold0 - 10
    else three_bet_threshold0
  let call_threshold : ℚ :=
    if hero_pos = "BTN" ∨ hero_pos = "CO" then call_threshold0 - 10
    else if hero_pos = "SB" ∨ hero_pos = "BB" then call_threshold0 - 5
    else call_threshold0
  let three_bet_threshold2 : ℚ :=
    if opp_params.fold_to_3bet > 60 then three_bet_threshold1 - 10
    else three_bet_threshold1
  let three_bet_threshold : ℚ := three_bet_threshold2 - blocker_adj
  if percentile ≥ three_bet_threshold then ⟨85, 15, 0⟩
  else if percentile ≥ three_bet_threshold - 10 then ⟨50, 40, 10⟩
  else if percentile ≥ call_threshold then ⟨15, 65, 20⟩
  else if percentile ≥ call_threshold - 15 then ⟨5, 40, 55⟩
  else ⟨0, 10, 90⟩

/-- Embeds _get_vs_3bet_frequencies from src/poker_logic/equity.py, lines 597
to 613.  The opponent parameters and stack are kept although the body never
reads them, as in the source. -/
def _get_vs_3bet_frequencies (percentile : ℚ) (_opp_params : OppParams)
    (_stack_bb : ℚ) : Freqs :=
  if percentile ≥ 97 then ⟨70, 30, 0⟩
  else if percentile ≥ 93 then ⟨40, 50, 10⟩
  else if percentile ≥ 85 then ⟨15, 60, 25⟩
  else if percentile ≥ 75 then ⟨5, 45, 50⟩
  else ⟨0, 15, 85⟩

/-- Embeds _get_vs_4bet_frequencies from src/poker_logic/equity.py, lines 616
to 627. -/
def _get_vs_4bet_frequencies (percentile stack_bb : ℚ) : Freqs :=
  if percentile ≥ 99 then ⟨60, 40, 0⟩
  else if percentile ≥ 97 then ⟨30, 60, 10⟩
  else if percentile ≥ 93 then ⟨10, 50, 40⟩
  else if percentile ≥ 88 ∧ stack_bb < 100 then ⟨5, 35, 60⟩
  else ⟨0, 10, 90⟩

/-- Embeds the frequency and primary action selection of
get_recommendation_v2, src/poker_logic/equity.py, lines 448 to 476: the
dispatch on the line string into the four line specific tables and the per
line derivation of the primary action, with the default pair for any other
line string. -/
def get_recommendation_v2_action (line hero_position aggressor_position : String)
    (percentile : ℚ) (opp : OppParams) (blocker_adj stack_bb : ℚ) :
    Freqs × String :=
  if line = "rfi" then
    let frequencies := _get_rfi_frequencies hero_position percentile
    (frequencies, if frequencies.raise > 50 then "raise" else "fold")
  else if line = "vs_open" then
    let frequencies :=
      _get_vs_open_frequencies hero_position aggressor_position percentile opp blocker_adj
    (frequencies,
      if frequencies.raise ≥ frequencies.call ∧ frequencies.raise ≥ frequencies.fold then "raise"
      else if frequencies.call ≥ frequencies.fold then "call"
      else "fold")
  else if line = "vs_3bet" then
    let frequencies := _get_vs_3bet_frequencies percentile opp stack_bb
    (frequencies,
      if frequencies.raise ≥ frequencies.call ∧ frequencies.raise ≥ frequencies.fold then "raise"
      else if frequencies.call ≥ frequencies.fold then "call"
      else "fold")
  else if line = "vs_4bet" then
    let frequencies := _get_vs_4bet_frequencies percentile stack_bb
    (frequencies, if frequencies.call > frequencies.fold then "call" else "fold")
  else
    (⟨30, 40, 30⟩, "call")

/-- The primary action selection rule exactly as the specification words it:
the action with the strictly highest frequency, ties broken in the fixed
priority order raise before call before fold.  This definition follows the
specification, not the source, and is compared against the source dispatch in
the claims about the primary action. -/
def spec_primary_action (f : Freqs) : String :=
  if f.raise ≥ f.call ∧ f.raise ≥ f.fold then "raise"
  else if f.call ≥ f.fold then "call"
  else "fold"

/-- The 52 card deck in the comprehension order of calculate_preflop_equity
(src/poker_logic/equity.py, lines 176 to 180): ranks A down to 2, suits
s h d c within each rank. -/
def deck : List Card :=
  (List.finRange 13).flatMap fun r => (List.finRange 4).map fun s => ⟨r, s⟩

/-- Models random.sample of the standard library as used for the board: draws
k elements without replacement by consuming one generator value per element
as an index into the not yet drawn part of the pool.  Returns the drawn
elements and the advanced draw counter. -/
def sample_k (rng : Nat → Nat) : Nat → Nat → List Card → List Card × Nat
  | ctr, 0, _ => ([], ctr)
  | ctr, k + 1, pool =>
    let i := rng ctr % pool.length
    let x := pool.getD i default
    let res := sample_k rng (ctr + 1) k (pool.eraseIdx i)
    (x :: res.1, res.2)

/-- The win, tie and completed trial counters of the simulation loop of
calculate_preflop_equity, together with the position of the global draw
counter. -/
structure SimCounters where
  wins : Nat
  ties : Nat
  total : Nat
  ctr : Nat
deriving DecidableEq, Repr

/-- Embeds the trial loop of calculate_preflop_equity, src/poker_logic/
equity.py, lines 185 to 212.  Each iteration draws one hand of the opponent
range with random.choice (one generator value used as an index), skips the
trial when that hand shares a card with the hero cards, repeats a card, or
leaves fewer than five simulation cards, and otherwise samples a five card
board, compares the hands through the cmp parameter (compare_hands in the
source) and advances the counters. -/
def run_trials (cmp : List Card → List Card → List Card → Int) (rng : Nat → Nat)
    (hero_cards : List Card) (opponent_range : List (Card × Card))
    (available_cards : List Card) : Nat → SimCounters → SimCounters
  | 0, st => st
  | n + 1, st =>
    let opp_hand := opponent_range.getD (rng st.ctr % opponent_range.length) default
    let st1 : SimCounters := { st with ctr := st.ctr + 1 }
    if opp_hand.1 ∈ hero_cards ∨ opp_hand.2 ∈ hero_cards then
      run_trials cmp rng hero_cards opponent_range available_cards n st1
    else if opp_hand.1 = opp_hand.2 then
      run_trials cmp rng hero_cards opponent_range available_cards n st1
    else
      let sim_deck := available_cards.filter fun c =>
        decide (c ≠ opp_hand.1 ∧ c ≠ opp_hand.2)
      if sim_deck.length < 5 then
        run_trials cmp rng hero_cards opponent_range available_cards n st1
      else
        let bs := sample_k rng st1.ctr 5 sim_deck
        let result := cmp hero_cards [opp_hand.1, opp_hand.2] bs.1
        let st2 : SimCounters :=
          if result > 0 then
            { wins := st1.wins + 1, ties := st1.ties, total := st1.total + 1, ctr := bs.2 }
          else if result = 0 then
            { wins := st1.wins, ties := st1.ties + 1, total := st1.total + 1, ctr := bs.2 }
          else
            { wins := st1.wins, ties := st1.ties, total := st1.total + 1, ctr := bs.2 }
        run_trials cmp rng hero_cards opponent_range available_cards n st2

/-- Embeds calculate_preflop_equity from src/poker_logic/equity.py, lines 153
to 219.  The cmp parameter stands for compare_hands (whose board present path
lives in the external treys library), rng and the ctr0 position stand for the
state of the process global generator, and the advanced position is returned
next to the equity so that sequential calls thread that state. -/
def calculate_preflop_equity (cmp : List Card → List Card → List Card → Int)
    (rng : Nat → Nat) (hero_cards : List Card)
    (opponent_range : List (Card × Card)) (num_simulations : Nat) (ctr0 : Nat) :
    ℚ × Nat :=
  if opponent_range = [] then (50, ctr0)
  else
    let available_cards := deck.filter fun c => decide (c ∉ hero_cards)
    let st := run_trials cmp rng hero_cards opponent_range available_cards
      num_simulations ⟨0, 0, 0, ctr0⟩
    if st.total = 0 then (50, st.ctr)
    else (((st.wins : ℚ) + (st.ties : ℚ) * (1 / 2)) / (st.total : ℚ) * 100, st.ctr)

/-- One entry of the blocks list of analyze_blockers, src/poker_logic/
blockers.py.  The Python entries are formatted strings; here each carries its
numeric content: for the pocket pairs the held card count (the string shows
count times 25 percent), for AK and AQ the blocked combination percentage of
the string. -/
inductive BlockItem where
  | AA (count : Nat)
  | KK (count : Nat)
  | QQ (count : Nat)
  | AK (combos_pct : Nat)
  | AQ (combos_pct : Nat)
deriving DecidableEq, Repr

/-- One entry of the descriptions list of analyze_blockers.  fullAA stands
for the string saying the AA combinations are fully blocked (zero percent of
them survive), halfAA for the string saying half of them are blocked, and
likewise for KK; strongAK stands for the strong AK blocking string. -/
inductive BlockDesc where
  | fullAA
  | halfAA
  | fullKK
  | halfKK
  | strongAK
deriving DecidableEq, Repr

/-- The result dictionary of analyze_blockers.  For the two card case the
source returns effect, effect_score, effect_text, blocks and descriptions;
effect_text is a presentation copy of effect and is omitted.  For a hand of
any other size the source returns effect unknown with an empty blocks list
and no score; that case is mapped to score zero and empty lists. -/
structure BlockerReport where
  effect : String
  effect_score : Int
  blocks : List BlockItem
  descriptions : List BlockDesc
deriving DecidableEq, Repr

/-- Embeds analyze_blockers from src/poker_logic/blockers.py, lines 15 to 98:
the accumulation of the blocks list, the descriptions and the effect score
over the AA, KK, QQ, AK and AQ watch list, followed by the threshold
classification of the score. -/
def analyze_blockers (hero_cards : List Card) : BlockerReport :=
  match hero_cards with
  | [c1, c2] =>
    let rank1 := c1.rank
    let rank2 := c2.rank
    let ace_count : Nat := (if rank1 = 0 then 1 else 0) + (if rank2 = 0 then 1 else 0)
    let king_count : Nat := (if rank1 = 1 then 1 else 0) + (if rank2 = 1 then 1 else 0)
    let queen_count : Nat := (if rank1 = 2 then 1 else 0) + (if rank2 = 2 then 1 else 0)
    let blocks1 : List BlockItem :=
      if rank1 = 0 ∨ rank2 = 0 then [BlockItem.AA ace_count] else []
    let descs1 : List BlockDesc :=
      if rank1 = 0 ∨ rank2 = 0 then
        if ace_count = 2 then [BlockDesc.fullAA] else [BlockDesc.halfAA]
      else []
    let score1 : Int := if rank1 = 0 ∨ rank2 = 0 then ace_count * 15 else 0
    let blocks2 : List BlockItem :=
      if rank1 = 1 ∨ rank2 = 1 then [BlockItem.KK king_count] else []
    let descs2 : List BlockDesc :=
      if rank1 = 1 ∨ rank2 = 1 then
        if king_count = 2 then [BlockDesc.fullKK] else [BlockDesc.halfKK]
      else []
    let score2 : Int := if rank1 = 1 ∨ rank2 = 1 then king_count * 12 else 0
    let blocks3 : List BlockItem :=
      if rank1 = 2 ∨ rank2 = 2 then [BlockItem.QQ queen_count] else []
    let score3 : Int := if rank1 = 2 ∨ rank2 = 2 then queen_count * 10 else 0
    let blocks4 : List BlockItem :=
      if (rank1 = 0 ∧ rank2 = 1) ∨ (rank1 = 1 ∧ rank2 = 0) then [BlockItem.AK 75]
      else if rank1 = 0 ∨ rank2 = 0 then [BlockItem.AK 25]
      else if rank1 = 1 ∨ rank2 = 1 then [BlockItem.AK 25]
      else []
    let descs4 : List BlockDesc :=
      if (rank1 = 0 ∧ rank2 = 1) ∨ (rank1 = 1 ∧ rank2 = 0) then [BlockDesc.strongAK]
      else []
    let score4 : Int :=
      if (rank1 = 0 ∧ rank2 = 1) ∨ (rank1 = 1 ∧ rank2 = 0) then 20
      else if rank1 = 0 ∨ rank2 = 0 then 5
      else if rank1 = 1 ∨ rank2 = 1 then 5
      else 0
    let blocks5 : List BlockItem :=
      if (rank1 = 0 ∧ rank2 = 2) ∨ (rank1 = 2 ∧ rank2 = 0) then [BlockItem.AQ 75] else []
    let score5 : Int :=
      if (rank1 = 0 ∧ rank2 = 2) ∨ (rank1 = 2 ∧ rank2 = 0) then 15 else 0
    let effect_score := score1 + score2 + score3 + score4 + score5
    let effect : String :=
      if effect_score ≥ 30 then "strong"
      else if effect_score ≥ 15 then "moderate"
      else if effect_score > 0 then "weak"
      else "none"
    { effect := effect
      effect_score := effect_score
      blocks := blocks1 ++ blocks2 ++ blocks3 ++ blocks4 ++ blocks5
      descriptions := descs1 ++ descs2 ++ descs4 }
  | _ => { effect := "unknown", effect_score := 0, blocks := [], descriptions := [] }

/-- The suffix of a hand class string produced by get_hand_notation in
src/utils/helpers.py: a bare pair such as "AA", a suited class such as "AKs"
or an offsuit class such as "AKo". -/
inductive HandKind where
  | pair
  | suited
  | offsuit
deriving DecidableEq, Repr

/-- Embeds get_hand_notation from src/utils/helpers.py, lines 68 to 96 (the
source name ends in a word this development cannot use as an identifier).
The string "AKs" becomes the structured key (rank of A, rank of K, suited);
the ranks are sorted by their index in RANKS exactly as in the source, and a
list of other than two cards gives none, the model of the empty string. -/
def get_hand_code (cards : List Card) : Option (Rank × Rank × HandKind) :=
  match cards with
  | [c1, c2] =>
    let rank1 : Rank := if c1.rank.val > c2.rank.val then c2.rank else c1.rank
    let rank2 : Rank := if c1.rank.val > c2.rank.val then c1.rank else c2.rank
    if rank1 = rank2 then some (rank1, rank2, HandKind.pair)
    else if c1.suit = c2.suit then some (rank1, rank2, HandKind.suited)
    else some (rank1, rank2, HandKind.offsuit)
  | _ => none

/-- Embeds the hand_rankings dictionary of get_hand_rank_percentile,
src/utils/helpers.py, lines 112 to 151, with the string keys replaced by the
structured keys of get_hand_code (A is rank 0, K rank 1, and so on down to 2
at rank 12). -/
def hand_rankings : List ((Rank × Rank × HandKind) × Nat) :=
  [((0, 0, HandKind.pair), 100), ((1, 1, HandKind.pair), 99),
   ((2, 2, HandKind.pair), 98), ((0, 1, HandKind.suited), 97),
   ((3, 3, HandKind.pair), 96), ((0, 1, HandKind.offsuit), 95), ((0, 2, HandKind.suited), 94),
   ((4, 4, HandKind.pair), 93), ((0, 2, HandKind.offsuit), 92), ((0, 3, HandKind.suited), 91),
   ((1, 2, HandKind.suited), 90),
   ((5, 5, HandKind.pair), 89), ((0, 4, HandKind.suited), 88), ((0, 3, HandKind.offsuit), 87),
   ((1, 3, HandKind.suited), 86), ((1, 2, HandKind.offsuit), 85),
   ((6, 6, HandKind.pair), 84), ((1, 4, HandKind.suited), 83), ((0, 4, HandKind.offsuit), 82),
   ((2, 3, HandKind.suited), 81), ((1, 3, HandKind.offsuit), 80),
   ((2, 4, HandKind.suited), 79), ((3, 4, HandKind.suited), 78),
   ((7, 7, HandKind.pair), 77), ((0, 5, HandKind.suited), 76), ((1, 4, HandKind.offsuit), 75),
   ((0, 6, HandKind.suited), 74), ((2, 5, HandKind.suited), 73),
   ((2, 3, HandKind.offsuit), 72), ((3, 4, HandKind.offsuit), 71), ((0, 7, HandKind.suited), 70),
   ((0, 9, HandKind.suited), 69), ((0, 8, HandKind.suited), 68),
   ((8, 8, HandKind.pair), 67), ((1, 5, HandKind.suited), 66), ((2, 4, HandKind.offsuit), 65),
   ((4, 5, HandKind.suited), 64), ((0, 10, HandKind.suited), 63),
   ((3, 5, HandKind.suited), 62), ((0, 11, HandKind.suited), 61), ((1, 6, HandKind.suited), 60),
   ((0, 12, HandKind.suited), 59),
   ((9, 9, HandKind.pair), 58), ((1, 7, HandKind.suited), 57), ((2, 6, HandKind.suited), 56),
   ((1, 5, HandKind.offsuit), 55), ((4, 6, HandKind.suited), 54),
   ((1, 8, HandKind.suited), 53), ((3, 6, HandKind.suited), 52), ((5, 6, HandKind.suited), 51),
   ((10, 10, HandKind.pair), 50), ((1, 9, HandKind.suited), 49), ((2, 5, HandKind.offsuit), 48),
   ((4, 5, HandKind.offsuit), 47), ((3, 5, HandKind.offsuit), 46),
   ((1, 10, HandKind.suited), 45), ((2, 7, HandKind.suited), 44), ((4, 7, HandKind.suited), 43),
   ((1, 11, HandKind.suited), 42), ((5, 7, HandKind.suited), 41),
   ((11, 11, HandKind.pair), 40), ((1, 12, HandKind.suited), 39), ((2, 8, HandKind.suited), 38),
   ((6, 7, HandKind.suited), 37), ((3, 7, HandKind.suited), 36),
   ((2, 9, HandKind.suited), 35), ((5, 6, HandKind.offsuit), 34), ((4, 6, HandKind.offsuit), 33),
   ((5, 8, HandKind.suited), 32),
   ((12, 12, HandKind.pair), 31), ((2, 10, HandKind.suited), 30), ((3, 6, HandKind.offsuit), 29),
   ((7, 8, HandKind.suited), 28), ((2, 11, HandKind.suited), 27),
   ((6, 8, HandKind.suited), 26), ((3, 8, HandKind.suited), 25), ((2, 12, HandKind.suited), 24),
   ((4, 8, HandKind.suited), 23),
   ((6, 7, HandKind.offsuit), 22), ((3, 9, HandKind.suited), 21), ((8, 9, HandKind.suited), 20),
   ((5, 7, HandKind.offsuit), 19), ((7, 9, HandKind.suited), 18),
   ((3, 10, HandKind.suited), 17), ((5, 9, HandKind.suited), 16), ((9, 10, HandKind.suited), 15),
   ((3, 11, HandKind.suited), 14), ((4, 7, HandKind.offsuit), 13),
   ((3, 12, HandKind.suited), 12), ((8, 10, HandKind.suited), 11), ((6, 9, HandKind.suited), 10),
   ((7, 8, HandKind.offsuit), 9), ((4, 9, HandKind.suited), 8),
   ((5, 8, HandKind.offsuit), 7), ((6, 8, HandKind.offsuit), 6), ((9, 11, HandKind.suited), 5),
   ((4, 10, HandKind.suited), 4), ((7, 10, HandKind.suited), 3),
   ((10, 11, HandKind.suited), 2), ((4, 11, HandKind.suited), 1)]

/-- Embeds get_hand_rank_percentile from src/utils/helpers.py, lines 99 to
154: the dictionary lookup of the hand class code with the default of 5 for
a code absent from the table, including the empty code of an invalid hand. -/
def get_hand_rank_percentile (cards : List Card) : Nat :=
  match get_hand_code cards with
  | none => 5
  | some key =>
    match hand_rankings.find? fun e => decide (e.1 = key) with
    | none => 5
    | some e => e.2

/-- The generator used by the counterexample of the seeded determinism claim:
it answers 0 for the six draws of the first estimator call and 1 afterwards,
one realizable behaviour of the process global generator. -/
def rng_demo : Nat → Nat := fun k => if k < 6 then 0 else 1

/-- The hero hand of the determinism counterexample: ace of spades and king
of diamonds. -/
def hero_demo : List Card := [⟨0, 0⟩, ⟨1, 2⟩]

/-- The opponent range of the determinism counterexample: seven two offsuit,
which loses the heuristic comparison to the hero hand, and pocket queens,
which wins it. -/
def range_demo : List (Card × Card) := [(⟨7, 1⟩, ⟨12, 3⟩), (⟨2, 1⟩, ⟨2, 3⟩)]

/-- Helper: the preflop heuristic only ever produces one of these class and
score pairs, one per source branch. -/
lemma evaluate_preflop_hand_mem (hole_cards : List Card) :
    evaluate_preflop_hand hole_cards ∈
      [((1 : Nat), (100 : Int)), (2, 300), (3, 600), (4, 1000), (2, 400), (3, 700),
       (4, 1200), (5, 1500), (6, 2000), (7, 3000), (8, 5000), (10, 7462)] := by
  rcases hole_cards with _ | ⟨c1, _ | ⟨c2, _ | ⟨c3, rest⟩⟩⟩
  · simp [evaluate_preflop_hand]
  · simp [evaluate_preflop_hand]
  · simp only [evaluate_preflop_hand]
    split_ifs <;> simp
  · simp [evaluate_preflop_hand]

/-- Helper: across the branch table of the preflop heuristic, a strictly
smaller hand class always carries a strictly smaller score. -/
lemma evaluate_preflop_score_lt_of_class_lt (h1 h2 : List Card)
    (hlt : (evaluate_preflop_hand h1).1 < (evaluate_preflop_hand h2).1) :
    (evaluate_preflop_hand h1).2 < (evaluate_preflop_hand h2).2 := by
  have m1 := evaluate_preflop_hand_mem h1
  have m2 := evaluate_preflop_hand_mem h2
  simp only [List.mem_cons, List.not_mem_nil, or_false] at m1 m2
  rcases m1 with e1 | e1 | e1 | e1 | e1 | e1 | e1 | e1 | e1 | e1 | e1 | e1 <;>
    rcases m2 with e2 | e2 | e2 | e2 | e2 | e2 | e2 | e2 | e2 | e2 | e2 | e2 <;>
      rw [e1, e2] at hlt ⊢ <;> revert hlt <;> decide

/-- Helper: the RFI table always answers one of its four rows. -/
lemma rfi_rows (position : String) (percentile : ℚ) :
    _get_rfi_frequencies position percentile ∈
      [(⟨100, 0, 0⟩ : Freqs), ⟨70, 0, 30⟩, ⟨30, 0, 70⟩, ⟨0, 0, 100⟩] := by
  unfold _get_rfi_frequencies
  dsimp only
  split_ifs <;> simp

/-- Helper: the vs open table always answers one of its five rows. -/
lemma vs_open_rows (hero_pos villain_pos : String) (percentile : ℚ)
    (opp : OppParams) (blocker_adj : ℚ) :
    _get_vs_open_frequencies hero_pos villain_pos percentile opp blocker_adj ∈
      [(⟨85, 15, 0⟩ : Freqs), ⟨50, 40, 10⟩, ⟨15, 65, 20⟩, ⟨5, 40, 55⟩, ⟨0, 10, 90⟩] := by
  unfold _get_vs_open_frequencies
  dsimp only
  split_ifs <;> simp

/-- Helper: the vs 3bet table always answers one of its five rows. -/
lemma vs_3bet_rows (percentile : ℚ) (opp : OppParams) (stack_bb : ℚ) :
    _get_vs_3bet_frequencies percentile opp stack_bb ∈
      [(⟨70, 30, 0⟩ : Freqs), ⟨40, 50, 10⟩, ⟨15, 60, 25⟩, ⟨5, 45, 50⟩, ⟨0, 15, 85⟩] := by
  unfold _get_vs_3bet_frequencies
  split_ifs <;> simp

/-- Helper: below percentile 99 the vs 4bet table answers one of its four
lower rows. -/
lemma vs_4bet_rows_lt_99 (percentile stack_bb : ℚ) (hp : percentile < 99) :
    _get_vs_4bet_frequencies percentile stack_bb ∈
      [(⟨30, 60, 10⟩ : Freqs), ⟨10, 50, 40⟩, ⟨5, 35, 60⟩, ⟨0, 10, 90⟩] := by
  unfold _get_vs_4bet_frequencies
  split_ifs with h1
  · exact absurd h1 (by linarith)
  all_goals simp

/-- Helper: the RFI table row sums to 100. -/
lemma sum_rfi (position : String) (percentile : ℚ) :
    (_get_rfi_frequencies position percentile).raise +
      (_get_rfi_frequencies position percentile).call +
      (_get_rfi_frequencies position percentile).fold = 100 := by
  unfold _get_rfi_frequencies
  dsimp only
  split_ifs <;> rfl

/-- Helper: the vs open table row sums to 100. -/
lemma sum_vs_open (hero_pos villain_pos : String) (percentile : ℚ)
    (opp : OppParams) (blocker_adj : ℚ) :
    (_get_vs_open_frequencies hero_pos villain_pos percentile opp blocker_adj).raise +
      (_get_vs_open_frequencies hero_pos villain_pos percentile opp blocker_adj).call +
      (_get_vs_open_frequencies hero_pos villain_pos percentile opp blocker_adj).fold = 100 := by
  unfold _get_vs_open_frequencies
  dsimp only
  split_ifs <;> rfl

/-- Helper: the vs 3bet table row sums to 100. -/
lemma sum_vs_3bet (percentile : ℚ) (opp : OppParams) (stack_bb : ℚ) :
    (_get_vs_3bet_frequencies percentile opp stack_bb).raise +
      (_get_vs_3bet_frequencies percentile opp stack_bb).call +
      (_get_vs_3bet_frequencies percentile opp stack_bb).fold = 100 := by
  unfold _get_vs_3bet_frequencies
  split_ifs <;> rfl

/-- Helper: the vs 4bet table row sums to 100. -/
lemma sum_vs_4bet (percentile stack_bb : ℚ) :
    (_get_vs_4bet_frequencies percentile stack_bb).raise +
      (_get_vs_4bet_frequencies percentile stack_bb).call +
      (_get_vs_4bet_frequencies percentile stack_bb).fold = 100 := by
  unfold _get_vs_4bet_frequencies
  split_ifs <;> rfl

/-- C1: for every entry of every line specific frequency lookup table of the
decision engine — the RFI, vs open, vs 3bet and vs 4bet tables and the
default entry, over every position, percentile, opponent parameter set,
blocker adjustment and stack size — the frequency distribution over raise,
call and fold sums to exactly 100. -/
theorem C1_frequency_tables_sum_100 (line hero_position aggressor_position : String)
    (percentile : ℚ) (opp : OppParams) (blocker_adj stack_bb : ℚ) :
    (get_recommendation_v2_action line hero_position aggressor_position percentile opp
        blocker_adj stack_bb).1.raise +
      (get_recommendation_v2_action line hero_position aggressor_position percentile opp
        blocker_adj stack_bb).1.call +
      (get_recommendation_v2_action line hero_position aggressor_position percentile opp
        blocker_adj stack_bb).1.fold = 100 := by
  unfold get_recommendation_v2_action
  dsimp only
  split_ifs <;> dsimp only <;>
    first
      | exact sum_rfi hero_position percentile
      | exact sum_vs_open hero_position aggressor_position percentile opp blocker_adj
      | exact sum_vs_3bet percentile opp stack_bb
      | exact sum_vs_4bet percentile stack_bb

/-- C2 counterexample: pocket aces and pocket kings land in the same branch
of the preflop heuristic and receive the same score 100, so pocket aces does
not score strictly better than pocket kings. -/
theorem C2_counterexample_AA_KK_equal_score :
    (evaluate_preflop_hand [⟨0, 0⟩, ⟨0, 1⟩]).2 = 100 ∧
    (evaluate_preflop_hand [⟨1, 0⟩, ⟨1, 1⟩]).2 = 100 ∧
    ¬ (evaluate_preflop_hand [⟨0, 0⟩, ⟨0, 1⟩]).2 <
        (evaluate_preflop_hand [⟨1, 0⟩, ⟨1, 1⟩]).2 := by
  decide

/-- C2 amended: the preflop heuristic is monotone over its category ordering
in the sense that a strictly stronger (smaller) hand class always carries a
strictly smaller score; in particular pocket kings scores strictly better
than ace king suited, which scores strictly better than ace king offsuit.
Pocket aces and pocket kings however share the top category and the score
100, so between those two the order is not strict. -/
theorem C2_amended_class_monotone :
    (∀ h1 h2 : List Card, (evaluate_preflop_hand h1).1 < (evaluate_preflop_hand h2).1 →
      (evaluate_preflop_hand h1).2 < (evaluate_preflop_hand h2).2) ∧
    (evaluate_preflop_hand [⟨1, 0⟩, ⟨1, 1⟩]).2 < (evaluate_preflop_hand [⟨0, 0⟩, ⟨1, 0⟩]).2 ∧
    (evaluate_preflop_hand [⟨0, 0⟩, ⟨1, 0⟩]).2 < (evaluate_preflop_hand [⟨0, 0⟩, ⟨1, 2⟩]).2 :=
  ⟨evaluate_preflop_score_lt_of_class_lt, by decide, by decide⟩

/-- C2 amended witness: the monotonicity applied to pocket aces against
pocket queens. -/
theorem C2_amended_class_monotone_witness :
    (evaluate_preflop_hand [⟨0, 0⟩, ⟨0, 1⟩]).2 < (evaluate_preflop_hand [⟨2, 0⟩, ⟨2, 1⟩]).2 :=
  C2_amended_class_monotone.1 [⟨0, 0⟩, ⟨0, 1⟩] [⟨2, 0⟩, ⟨2, 1⟩] (by decide)

/-- C3 counterexample: on the vs 4bet line with a hand of percentile 100 the
table row is raise 60, call 40, fold 0, whose strictly highest frequency is
raise, yet the engine derives the primary action call because the vs 4bet
branch only compares call against fold. -/
theorem C3_counterexample_vs_4bet_top :
    (get_recommendation_v2_action "vs_4bet" "BTN" "MP" 100 (opponent_params "unknown")
        0 100).1 = ⟨60, 40, 0⟩ ∧
    (get_recommendation_v2_action "vs_4bet" "BTN" "MP" 100 (opponent_params "unknown")
        0 100).2 = "call" ∧
    spec_primary_action ⟨60, 40, 0⟩ = "raise" := by
  decide

/-- C3 amended: the derived primary action is the action with the strictly
highest frequency, ties broken raise before call before fold, on the rfi, vs
open and vs 3bet lines for every input, and on the vs 4bet line whenever the
percentile is below 99; on the vs 4bet line at percentile 99 or above the
engine returns call although raise has the strictly highest frequency. -/
theorem C3_amended_primary_is_argmax (line hero_position aggressor_position : String)
    (percentile : ℚ) (opp : OppParams) (blocker_adj stack_bb : ℚ)
    (h : line = "rfi" ∨ line = "vs_open" ∨ line = "vs_3bet" ∨
      (line = "vs_4bet" ∧ percentile < 99)) :
    (get_recommendation_v2_action line hero_position aggressor_position percentile opp
        blocker_adj stack_bb).2 =
      spec_primary_action (get_recommendation_v2_action line hero_position aggressor_position
        percentile opp blocker_adj stack_bb).1 := by
  rcases h with h | h | h | ⟨h, hp⟩ <;> subst h <;>
    simp only [get_recommendation_v2_action, String.reduceEq, reduceIte]
  · have hr := rfi_rows hero_position percentile
    simp only [List.mem_cons, List.not_mem_nil, or_false] at hr
    rcases hr with e | e | e | e <;> rw [e] <;> decide
  · have hr := vs_open_rows hero_position aggressor_position percentile opp blocker_adj
    simp only [List.mem_cons, List.not_mem_nil, or_false] at hr
    rcases hr with e | e | e | e | e <;> rw [e] <;> decide
  · have hr := vs_3bet_rows percentile opp stack_bb
    simp only [List.mem_cons, List.not_mem_nil, or_false] at hr
    rcases hr with e | e | e | e | e <;> rw [e] <;> decide
  · have hr := vs_4bet_rows_lt_99 percentile stack_bb hp
    simp only [List.mem_cons, List.not_mem_nil, or_false] at hr
    rcases hr with e | e | e | e <;> rw [e] <;> decide

/-- C3 amended witness: on the rfi line from UTG with a percentile 90 hand
the engine answer agrees with the specification argmax rule. -/
theorem C3_amended_primary_is_argmax_witness :
    (get_recommendation_v2_action "rfi" "UTG" "MP" 90 (opponent_params "unknown") 0 100).2 =
      spec_primary_action
        (get_recommendation_v2_action "rfi" "UTG" "MP" 90 (opponent_params "unknown") 0 100).1 :=
  C3_amended_primary_is_argmax "rfi" "UTG" "MP" 90 (opponent_params "unknown") 0 100 (Or.inl rfl)

/-- C5: a paired class expands to exactly 6 combinations, a suited class with
distinct ranks to exactly 4 and an offsuit class with distinct ranks to
exactly 12; no expansion contains a duplicate combination or a combination
using the same physical card twice. -/
theorem C5_expand_counts (r r1 r2 : Rank) (hne : r1 ≠ r2) :
    ((expand_hand_shape (.pair r)).length = 6 ∧
      (expand_hand_shape (.pair r)).Nodup ∧
      ∀ p ∈ expand_hand_shape (.pair r), p.1 ≠ p.2) ∧
    ((expand_hand_shape (.suited r1 r2)).length = 4 ∧
      (expand_hand_shape (.suited r1 r2)).Nodup ∧
      ∀ p ∈ expand_hand_shape (.suited r1 r2), p.1 ≠ p.2) ∧
    ((expand_hand_shape (.offsuit r1 r2)).length = 12 ∧
      (expand_hand_shape (.offsuit r1 r2)).Nodup ∧
      ∀ p ∈ expand_hand_shape (.offsuit r1 r2), p.1 ≠ p.2) := by
  revert r r1 r2
  decide

/-- C5 witness: the counts at the pocket ace class and the ace king suited
and offsuit classes. -/
theorem C5_expand_counts_witness :
    (expand_hand_shape (.pair 0)).length = 6 ∧
    (expand_hand_shape (.suited 0 1)).length = 4 ∧
    (expand_hand_shape (.offsuit 0 1)).length = 12 :=
  ⟨(C5_expand_counts 0 0 1 (by decide)).1.1,
   (C5_expand_counts 0 0 1 (by decide)).2.1.1,
   (C5_expand_counts 0 0 1 (by decide)).2.2.1⟩

/-- C8: a hero hand of two aces yields a blocker report with effect category
strong (its effect score is 30 from the aces plus 5 from the partial AK
block), whose blocks list records that 2 of the 4 aces are held and whose
descriptions assert that the pocket aces class is fully blocked, that is,
that zero percent of its combinations survive. -/
theorem C8_pocket_aces_strong_blockers (s1 s2 : Suit) :
    (analyze_blockers [⟨0, s1⟩, ⟨0, s2⟩]).effect = "strong" ∧
    (analyze_blockers [⟨0, s1⟩, ⟨0, s2⟩]).effect_score = 35 ∧
    BlockItem.AA 2 ∈ (analyze_blockers [⟨0, s1⟩, ⟨0, s2⟩]).blocks ∧
    BlockDesc.fullAA ∈ (analyze_blockers [⟨0, s1⟩, ⟨0, s2⟩]).descriptions := by
  revert s1 s2
  decide

/-- C9: for every line string other than rfi, vs_open, vs_3bet and vs_4bet
the engine does not fail: it answers the fixed default distribution of raise
30, call 40, fold 30 with primary action call. -/
theorem C9_unknown_line_default (line hero_position aggressor_position : String)
    (percentile : ℚ) (opp : OppParams) (blocker_adj stack_bb : ℚ)
    (h1 : line ≠ "rfi") (h2 : line ≠ "vs_open") (h3 : line ≠ "vs_3bet")
    (h4 : line ≠ "vs_4bet") :
    get_recommendation_v2_action line hero_position aggressor_position percentile opp
        blocker_adj stack_bb = (⟨30, 40, 30⟩, "call") := by
  unfold get_recommendation_v2_action
  rw [if_neg h1, if_neg h2, if_neg h3, if_neg h4]

/-- C9 witness: the default answer at the line string check. -/
theorem C9_unknown_line_default_witness :
    get_recommendation_v2_action "check" "UTG" "MP" 50 (opponent_params "unknown") 0 100 =
      (⟨30, 40, 30⟩, "call") :=
  C9_unknown_line_default "check" "UTG" "MP" 50 (opponent_params "unknown") 0 100
    (by decide) (by decide) (by decide) (by decide)

/-- Helper: every value stored in the hand ranking table lies between 1 and
100. -/
lemma hand_rankings_values_bounded :
    ∀ e ∈ hand_rankings, 1 ≤ e.2 ∧ e.2 ≤ 100 := by
  decide

/-- C10: the starting hand percentile function is total and bounded: for a
two card hand whose class code is absent from the ranking table it returns
the default 5, and for every two card hand the answer lies between 1 and
100. -/
theorem C10_percentile_total_bounded (c1 c2 : Card) :
    (∀ key, get_hand_code [c1, c2] = some key →
      hand_rankings.find? (fun e => decide (e.1 = key)) = none →
      get_hand_rank_percentile [c1, c2] = 5) ∧
    1 ≤ get_hand_rank_percentile [c1, c2] ∧ get_hand_rank_percentile [c1, c2] ≤ 100 := by
  constructor
  · intro key hk hnone
    unfold get_hand_rank_percentile
    rw [hk]
    dsimp only
    rw [hnone]
  · unfold get_hand_rank_percentile
    cases hc : get_hand_code [c1, c2] with
    | none => exact ⟨by norm_num, by norm_num⟩
    | some key =>
      dsimp only
      cases hf : hand_rankings.find? fun e => decide (e.1 = key) with
      | none => exact ⟨by norm_num, by norm_num⟩
      | some e =>
        exact hand_rankings_values_bounded e (List.mem_of_find?_eq_some hf)

/-- C10 witness: the seven deuce offsuit class is absent from the table and
receives the default 5, which lies in the bounds. -/
theorem C10_percentile_total_bounded_witness :
    get_hand_rank_percentile [⟨7, 3⟩, ⟨12, 2⟩] = 5 ∧
    1 ≤ get_hand_rank_percentile [⟨7, 3⟩, ⟨12, 2⟩] := by
  have h := C10_percentile_total_bounded ⟨7, 3⟩ ⟨12, 2⟩
  exact ⟨h.1 (⟨7, 12, HandKind.offsuit⟩ : Rank × Rank × HandKind) (by decide) (by decide),
    h.2.1⟩

/-- Helper: an index below the length fetches a list member. -/
lemma getD_mem_of_lt {α : Type} {l : List α} {i : Nat} {d : α} (h : i < l.length) :
    l.getD i d ∈ l := by
  rw [List.getD_eq_getElem?_getD, List.getElem?_eq_getElem h]
  exact List.getElem_mem h

/-- Helper: when every drawn opponent hand is skipped — because it shares a
card with the hero hand or repeats a card — the trial loop leaves the win,
tie and completed trial counters unchanged. -/
lemma run_trials_skip (cmp : List Card → List Card → List Card → Int)
    (rng : Nat → Nat) (hero_cards : List Card)
    (opponent_range : List (Card × Card)) (available_cards : List Card)
    (hskip : ∀ c : Nat,
      (opponent_range.getD (rng c % opponent_range.length) default).1 ∈ hero_cards ∨
      (opponent_range.getD (rng c % opponent_range.length) default).2 ∈ hero_cards ∨
      (opponent_range.getD (rng c % opponent_range.length) default).1 =
        (opponent_range.getD (rng c % opponent_range.length) default).2) :
    ∀ (n : Nat) (st : SimCounters),
      (run_trials cmp rng hero_cards opponent_range available_cards n st).wins = st.wins ∧
      (run_trials cmp rng hero_cards opponent_range available_cards n st).ties = st.ties ∧
      (run_trials cmp rng hero_cards opponent_range available_cards n st).total = st.total := by
  intro n
  induction n with
  | zero => intro st; exact ⟨rfl, rfl, rfl⟩
  | succ n ih =>
    intro st
    rw [run_trials]
    dsimp only
    by_cases hc :
        (opponent_range.getD (rng st.ctr % opponent_range.length) default).1 ∈ hero_cards ∨
        (opponent_range.getD (rng st.ctr % opponent_range.length) default).2 ∈ hero_cards
    · rw [if_pos hc]
      exact ih _
    · rw [if_neg hc]
      rcases hskip st.ctr with h | h | h
      · exact absurd (Or.inl h) hc
      · exact absurd (Or.inr h) hc
      · rw [if_pos h]
        exact ih _

/-- Helper: the trial loop preserves the invariant that wins plus ties never
exceeds the number of completed trials. -/
lemma run_trials_wins_ties_le (cmp : List Card → List Card → List Card → Int)
    (rng : Nat → Nat) (hero_cards : List Card)
    (opponent_range : List (Card × Card)) (available_cards : List Card) :
    ∀ (n : Nat) (st : SimCounters), st.wins + st.ties ≤ st.total →
      (run_trials cmp rng hero_cards opponent_range available_cards n st).wins +
        (run_trials cmp rng hero_cards opponent_range available_cards n st).ties ≤
        (run_trials cmp rng hero_cards opponent_range available_cards n st).total := by
  intro n
  induction n with
  | zero => intro st hst; exact hst
  | succ n ih =>
    intro st hst
    rw [run_trials]
    dsimp only
    split_ifs
    · exact ih _ hst
    · exact ih _ hst
    · exact ih _ hst
    · exact ih _ (by dsimp only; omega)
    · exact ih _ (by dsimp only; omega)
    · exact ih _ (by dsimp only; omega)

/-- C4 counterexample: the estimator call signature carries no seed; the
randomness comes from the process global generator, which successive calls
advance.  With the generator behaviour rng_demo the first call with these
inputs answers equity 100 and the immediately following second call with the
identical inputs answers equity 0, so repeated invocations with identical
inputs are not bit identical. -/
theorem C4_counterexample_sequential_calls :
    (calculate_preflop_equity compare_hands_preflop rng_demo hero_demo range_demo 1 0).1
        = 100 ∧
    (calculate_preflop_equity compare_hands_preflop rng_demo hero_demo range_demo 1
        (calculate_preflop_equity compare_hands_preflop rng_demo hero_demo
          range_demo 1 0).2).1 = 0 := by
  have hctr : (calculate_preflop_equity compare_hands_preflop rng_demo hero_demo
      range_demo 1 0).2 = 6 := by decide
  have h1 : run_trials compare_hands_preflop rng_demo hero_demo range_demo
      (deck.filter fun c => decide (c ∉ hero_demo)) 1 ⟨0, 0, 0, 0⟩ = ⟨1, 0, 1, 6⟩ := by
    decide
  have h2 : run_trials compare_hands_preflop rng_demo hero_demo range_demo
      (deck.filter fun c => decide (c ∉ hero_demo)) 1 ⟨0, 0, 0, 6⟩ = ⟨0, 0, 1, 12⟩ := by
    decide
  constructor
  · unfold calculate_preflop_equity
    rw [if_neg (by decide : ¬(range_demo = []))]
    dsimp only
    rw [h1]
    norm_num
  · rw [hctr]
    unfold calculate_preflop_equity
    rw [if_neg (by decide : ¬(range_demo = []))]
    dsimp only
    rw [h2]
    norm_num

/-- C4 amended: determinism holds at the level of the generator state, which
is the closest substitute for a seed the source offers: two estimator calls
begun from equal generator behaviours and equal draw positions — as after
reseeding the global generator identically — with identical hero cards,
range and trial count return bit identical results. -/
theorem C4_amended_state_determinism (cmp : List Card → List Card → List Card → Int)
    (rng1 rng2 : Nat → Nat) (hero_cards : List Card)
    (opponent_range : List (Card × Card)) (num_simulations : Nat) (c1 c2 : Nat)
    (hrng : rng1 = rng2) (hc : c1 = c2) :
    calculate_preflop_equity cmp rng1 hero_cards opponent_range num_simulations c1 =
      calculate_preflop_equity cmp rng2 hero_cards opponent_range num_simulations c2 := by
  rw [hrng, hc]

/-- C4 amended witness: two calls from the same generator state agree. -/
theorem C4_amended_state_determinism_witness :
    calculate_preflop_equity compare_hands_preflop rng_demo hero_demo range_demo 1 0 =
      calculate_preflop_equity compare_hands_preflop rng_demo hero_demo range_demo 1 0 :=
  C4_amended_state_determinism compare_hands_preflop rng_demo rng_demo hero_demo
    range_demo 1 0 0 rfl rfl

/-- C6: when the opponent range is empty, or every hand of the range shares a
card with the hero hole cards so that every trial is skipped and none
completes, the estimator returns exactly 50 without dividing by zero. -/
theorem C6_degenerate_range_neutral (cmp : List Card → List Card → List Card → Int)
    (rng : Nat → Nat) (hero_cards : List Card)
    (opponent_range : List (Card × Card)) (num_simulations ctr0 : Nat)
    (h : opponent_range = [] ∨
      ∀ p ∈ opponent_range, p.1 ∈ hero_cards ∨ p.2 ∈ hero_cards) :
    (calculate_preflop_equity cmp rng hero_cards opponent_range num_simulations ctr0).1
      = 50 := by
  unfold calculate_preflop_equity
  by_cases he : opponent_range = []
  · rw [if_pos he]
  · rcases h with h | h
    · exact absurd h he
    · rw [if_neg he]
      dsimp only
      have hskip : ∀ c : Nat,
          (opponent_range.getD (rng c % opponent_range.length) default).1 ∈ hero_cards ∨
          (opponent_range.getD (rng c % opponent_range.length) default).2 ∈ hero_cards ∨
          (opponent_range.getD (rng c % opponent_range.length) default).1 =
            (opponent_range.getD (rng c % opponent_range.length) default).2 := by
        intro c
        have hlen : 0 < opponent_range.length := List.length_pos.mpr he
        have hmem := getD_mem_of_lt (l := opponent_range)
          (i := rng c % opponent_range.length) (d := default)
          (Nat.mod_lt _ hlen)
        rcases h _ hmem with h1 | h1
        · exact Or.inl h1
        · exact Or.inr (Or.inl h1)
      have hz := run_trials_skip cmp rng hero_cards opponent_range
        (deck.filter fun c => decide (c ∉ hero_cards)) hskip num_simulations
        ⟨0, 0, 0, ctr0⟩
      rw [if_pos hz.2.2]

/-- C6 witness: a one hand range that shares the ace of spades with the hero
hand completes no trial and yields 50. -/
theorem C6_degenerate_range_neutral_witness :
    (calculate_preflop_equity compare_hands_preflop (fun _ => 0)
      [⟨0, 0⟩, ⟨0, 1⟩] [(⟨0, 0⟩, ⟨1, 2⟩)] 3 0).1 = 50 :=
  C6_degenerate_range_neutral compare_hands_preflop (fun _ => 0)
    [⟨0, 0⟩, ⟨0, 1⟩] [(⟨0, 0⟩, ⟨1, 2⟩)] 3 0 (Or.inr (by decide))

/-- C7: whenever at least one trial completes, the estimator answers exactly
wins plus half the ties over the completed trials times 100 — skipped trials
count neither as completed trials nor towards wins or ties — together with
the advanced generator position, and that answer always lies between 0 and
100. -/
theorem C7_equity_formula_and_bounds (cmp : List Card → List Card → List Card → Int)
    (rng : Nat → Nat) (hero_cards : List Card)
    (opponent_range : List (Card × Card)) (num_simulations ctr0 : Nat)
    (h : (run_trials cmp rng hero_cards opponent_range
        (deck.filter fun c => decide (c ∉ hero_cards)) num_simulations
        ⟨0, 0, 0, ctr0⟩).total ≠ 0) :
    calculate_preflop_equity cmp rng hero_cards opponent_range num_simulations ctr0 =
      ((((run_trials cmp rng hero_cards opponent_range
            (deck.filter fun c => decide (c ∉ hero_cards)) num_simulations
            ⟨0, 0, 0, ctr0⟩).wins : ℚ) +
          ((run_trials cmp rng hero_cards opponent_range
            (deck.filter fun c => decide (c ∉ hero_cards)) num_simulations
            ⟨0, 0, 0, ctr0⟩).ties : ℚ) * (1 / 2)) /
        ((run_trials cmp rng hero_cards opponent_range
            (deck.filter fun c => decide (c ∉ hero_cards)) num_simulations
            ⟨0, 0, 0, ctr0⟩).total : ℚ) * 100,
        (run_trials cmp rng hero_cards opponent_range
            (deck.filter fun c => decide (c ∉ hero_cards)) num_simulations
            ⟨0, 0, 0, ctr0⟩).ctr) ∧
    0 ≤ (calculate_preflop_equity cmp rng hero_cards opponent_range num_simulations
        ctr0).1 ∧
    (calculate_preflop_equity cmp rng hero_cards opponent_range num_simulations
        ctr0).1 ≤ 100 := by
  have hne : opponent_range ≠ [] := by
    intro he
    subst he
    exact h (run_trials_skip cmp rng hero_cards []
      (deck.filter fun c => decide (c ∉ hero_cards))
      (fun c => Or.inr (Or.inr rfl)) num_simulations ⟨0, 0, 0, ctr0⟩).2.2
  have hwt := run_trials_wins_ties_le cmp rng hero_cards opponent_range
    (deck.filter fun c => decide (c ∉ hero_cards)) num_simulations
    ⟨0, 0, 0, ctr0⟩ (by exact Nat.le_refl 0)
  set st := run_trials cmp rng hero_cards opponent_range
    (deck.filter fun c => decide (c ∉ hero_cards)) num_simulations
    ⟨0, 0, 0, ctr0⟩ with hst
  have heq : calculate_preflop_equity cmp rng hero_cards opponent_range
      num_simulations ctr0 =
      (((st.wins : ℚ) + (st.ties : ℚ) * (1 / 2)) / (st.total : ℚ) * 100, st.ctr) := by
    unfold calculate_preflop_equity
    rw [if_neg hne]
    dsimp only
    rw [if_neg h]
  have htotpos : (0 : ℚ) < (st.total : ℚ) := by
    exact_mod_cast Nat.pos_of_ne_zero h
  have hnum_nonneg : (0 : ℚ) ≤ (st.wins : ℚ) + (st.ties : ℚ) * (1 / 2) := by positivity
  have hnum_le : (st.wins : ℚ) + (st.ties : ℚ) * (1 / 2) ≤ (st.total : ℚ) := by
    have hcast : (st.wins : ℚ) + (st.ties : ℚ) ≤ (st.total : ℚ) := by exact_mod_cast hwt
    have hties : (st.ties : ℚ) * (1 / 2) ≤ (st.ties : ℚ) := by
      have : (0 : ℚ) ≤ (st.ties : ℚ) := by positivity
      linarith
    linarith
  refine ⟨heq, ?_, ?_⟩
  · rw [heq]
    positivity
  · rw [heq]
    have hdiv : ((st.wins : ℚ) + (st.ties : ℚ) * (1 / 2)) / (st.total : ℚ) ≤ 1 :=
      (div_le_one htotpos).mpr hnum_le
    calc ((st.wins : ℚ) + (st.ties : ℚ) * (1 / 2)) / (st.total : ℚ) * 100
        ≤ 1 * 100 := by
          exact mul_le_mul_of_nonneg_right hdiv (by norm_num)
      _ = 100 := one_mul 100

/-- C7 witness: a single completed trial against seven two offsuit gives
equity 100, within the bounds. -/
theorem C7_equity_formula_and_bounds_witness :
    0 ≤ (calculate_preflop_equity compare_hands_preflop (fun _ => 0)
        [⟨0, 0⟩, ⟨1, 2⟩] [(⟨7, 1⟩, ⟨12, 3⟩)] 1 0).1 ∧
    (calculate_preflop_equity compare_hands_preflop (fun _ => 0)
        [⟨0, 0⟩, ⟨1, 2⟩] [(⟨7, 1⟩, ⟨12, 3⟩)] 1 0).1 ≤ 100 :=
  ⟨(C7_equity_formula_and_bounds compare_hands_preflop (fun _ => 0)
      [⟨0, 0⟩, ⟨1, 2⟩] [(⟨7, 1⟩, ⟨12, 3⟩)] 1 0 (by decide)).2.1,
   (C7_equity_formula_and_bounds compare_hands_preflop (fun _ => 0)
      [⟨0, 0⟩, ⟨1, 2⟩] [(⟨7, 1⟩, ⟨12, 3⟩)] 1 0 (by decide)).2.2⟩

end PokerCore
